import Mathlib

/-!
Verification of the screensharing example (`examples/screensharing/src/main.rs`).

The development shallowly embeds the core of the example:
* the stateful capture callback (lines 79–156): resolution detection, lazy
  creation of the outbound `NativeVideoSource`, the one-shot "sink ready"
  notification over a capacity-1 channel, and the in-place pixel conversion;
* the pump loop (lines 198–225): cancellation check, capture tick, non-blocking
  channel poll, and one-shot publish.

Machine integers are modelled as `Int`/`Nat` with explicit range checks where
the Rust code converts (`try_into().unwrap()` on the frame's `i32` dimensions).
Fallible paths (panics) are modelled with `Option`: `none` is a panic.
Heap allocation of `I420Buffer` is modelled with an explicit allocation-id
supply threaded through the callback state, so that "reallocates the buffer"
versus "reuses the same allocation" is observable in the model.
-/

namespace Screenshare

/-- Status tag delivered with each frame by the desktop capturer
(`CaptureResult` in the Rust source). -/
inductive CaptureResult where
  | Ok
  | ErrorTemporary
  | ErrorPermanent
deriving DecidableEq, Repr

/-- A raw desktop frame as delivered to the callback. Width and height are the
`i32` values reported by libwebrtc (hence `Int`); `stride` and `data` abstract
the packed ARGB buffer. -/
structure DesktopFrame where
  width : Int
  height : Int
  stride : Nat
  data : List Nat
deriving DecidableEq, Repr

/-- A video resolution (`VideoResolution` in the Rust source). -/
structure VideoResolution where
  width : Nat
  height : Nat
deriving DecidableEq, Repr

/-- An I420 planar buffer. `allocId` identifies the heap allocation: a call to
`I420Buffer.new` always returns a buffer with a fresh `allocId`, so two buffers
with distinct `allocId`s are distinct allocations. -/
structure I420Buffer where
  allocId : Nat
  width : Nat
  height : Nat
deriving DecidableEq, Repr

/-- `I420Buffer::new(width, height)`: allocates fresh planes for the given
resolution. The caller supplies the fresh allocation id from its supply. -/
def I420Buffer.new (allocId width height : Nat) : I420Buffer :=
  { allocId := allocId, width := width, height := height }

/-- Frame rotation (`VideoRotation` in the Rust source); the example always
uses `VideoRotation0`. -/
inductive VideoRotation where
  | VideoRotation0
  | VideoRotation90
  | VideoRotation180
  | VideoRotation270
deriving DecidableEq, Repr

/-- The reusable `VideoFrame` owned by the callback (lines 87–91). -/
structure VideoFrame where
  rotation : VideoRotation
  buffer : I420Buffer
  timestamp_us : Int
deriving DecidableEq, Repr

/-- The outbound video sink (`NativeVideoSource`), created once with the
resolution of the first successful frame. Cloning it (as the Rust code does to
send it over the channel) yields the same handle, modelled by plain equality. -/
structure NativeVideoSource where
  resolution : VideoResolution
deriving DecidableEq, Repr

/-- Capacity of the `tokio::sync::mpsc::channel(1)` created on line 77. -/
def channelCapacity : Nat := 1

/-- The sink-ready notification channel: a bounded queue of sink handles. -/
structure Channel where
  queue : List NativeVideoSource
deriving DecidableEq, Repr

/-- A single non-blocking send attempt: polling the `Sender::send` future once
with a no-op waker (lines 148–151). If the channel has a free slot the first
poll completes and enqueues the value (`true`); otherwise the first poll is
pending, the future is dropped, and the value is never enqueued (`false`). -/
def Channel.trySend (c : Channel) (v : NativeVideoSource) : Channel × Bool :=
  if c.queue.length < channelCapacity then ({ queue := c.queue ++ [v] }, true)
  else (c, false)

/-- `Receiver::try_recv` (line 205): non-blocking poll of the channel. -/
def Channel.try_recv (c : Channel) : Option NativeVideoSource × Channel :=
  match c.queue with
  | [] => (none, c)
  | v :: rest => (some v, { queue := rest })

/-- The channel as created on line 77, before anything is sent. -/
def initialChannel : Channel := { queue := [] }

/-- The mutable state the callback closure captures (lines 84–92):
the currently known resolution, the reusable `VideoFrame`, and the lazily
created video source. `next_alloc_id` is the model's fresh-allocation supply
for `I420Buffer.new`; it is strictly above every allocation id handed out so
far. -/
structure CallbackState where
  stream_width : Nat
  stream_height : Nat
  video_frame : VideoFrame
  video_source : Option NativeVideoSource
  next_alloc_id : Nat
deriving DecidableEq, Repr

/-- The callback state as initialized on lines 84–92: placeholder resolution
1920x1080, a fresh buffer at that resolution, `timestamp_us` 0, no source. -/
def initialCallbackState : CallbackState :=
  { stream_width := 1920
    stream_height := 1080
    video_frame :=
      { rotation := VideoRotation.VideoRotation0
        buffer := I420Buffer.new 0 1920 1080
        timestamp_us := 0 }
    video_source := none
    next_alloc_id := 1 }

/-- `i32` → `u32` conversion as performed by `try_into()` on lines 105–106:
succeeds exactly when the value is non-negative (every `i32` fits below
`2^32`); the explicit upper bound keeps the model honest about the target
width. -/
def tryIntoU32 (n : Int) : Option Nat :=
  if 0 ≤ n ∧ n < 2 ^ 32 then some n.toNat else none

/-- Observable actions performed by one callback invocation or one pump-loop
iteration. -/
inductive Event where
  /-- `yuv_helper::argb_to_i420` wrote the converted frame into this buffer
  (lines 119–130). -/
  | converted (buf : I420Buffer)
  /-- `NativeVideoSource::new` was called with this resolution (lines 138–141). -/
  | sinkCreated (res : VideoResolution)
  /-- The sink-ready notification was accepted by the channel (lines 148–151). -/
  | notifySent (vs : NativeVideoSource)
  /-- The sink-ready send was attempted once and abandoned: channel full. -/
  | notifyDropped
  /-- The frame was written into the sink: `video_source.capture_frame(&video_frame)`
  (line 133). -/
  | frameCaptured (vs : NativeVideoSource) (vf : VideoFrame)
  /-- The pump loop called `capturer.capture_frame()` (line 204). -/
  | captureTick
  /-- The pump loop received a sink from the channel and published a track
  built from it (lines 205–222). -/
  | published (vs : NativeVideoSource)
  /-- The pump loop observed the cancellation flag and exited (lines 199–202). -/
  | stopped
deriving DecidableEq, Repr

/-- One invocation of the capture callback (lines 93–155). Returns the updated
captured state, the updated channel, and the list of observable actions, or
`none` when the invocation panics (the `try_into().unwrap()` on lines
105–106). The conversion `yuv_helper::argb_to_i420` writes pixel data into the
current buffer's planes in place; it changes neither the buffer's allocation
and dimensions nor the frame's `timestamp_us`, which the closure never writes
after initialization. -/
def callback (st : CallbackState) (ch : Channel) (result : CaptureResult)
    (frame : DesktopFrame) : Option (CallbackState × Channel × List Event) :=
  match result with
  | CaptureResult.ErrorTemporary => some (st, ch, [])
  | CaptureResult.ErrorPermanent => some (st, ch, [])
  | CaptureResult.Ok =>
    match tryIntoU32 frame.height, tryIntoU32 frame.width with
    | some height, some width =>
      let st1 : CallbackState :=
        if width ≠ st.stream_width ∨ height ≠ st.stream_height then
          { st with
            stream_width := width
            stream_height := height
            video_frame :=
              { st.video_frame with buffer := I420Buffer.new st.next_alloc_id width height }
            next_alloc_id := st.next_alloc_id + 1 }
        else st
      match st1.video_source with
      | some vs =>
        some (st1, ch,
          [Event.converted st1.video_frame.buffer, Event.frameCaptured vs st1.video_frame])
      | none =>
        let video_source_inner : NativeVideoSource :=
          { resolution := { width := st1.stream_width, height := st1.stream_height } }
        let sendResult := ch.trySend video_source_inner
        some ({ st1 with video_source := some video_source_inner }, sendResult.1,
          [Event.converted st1.video_frame.buffer,
           Event.sinkCreated video_source_inner.resolution,
           if sendResult.2 then Event.notifySent video_source_inner else Event.notifyDropped])
    | _, _ => none

/-- The callback invoked at ambient wall-clock time `now` (microseconds).
The closure in the source reads no clock — `timestamp_us` is written only at
initialization (line 90) — so the result does not depend on `now`. -/
def callbackAt (now : Int) (st : CallbackState) (ch : Channel) (result : CaptureResult)
    (frame : DesktopFrame) : Option (CallbackState × Channel × List Event) :=
  callback st ch result frame

/-- A sequence of callback invocations, as produced by successive capture
ticks, threading state and channel. -/
def runCallbacks : CallbackState → Channel → List (CaptureResult × DesktopFrame) →
    Option (CallbackState × Channel × List Event)
  | st, ch, [] => some (st, ch, [])
  | st, ch, (r, f) :: rest =>
    match callback st ch r f with
    | none => none
    | some (st1, ch1, evs1) =>
      match runCallbacks st1 ch1 rest with
      | none => none
      | some (st2, ch2, evs2) => some (st2, ch2, evs1 ++ evs2)

/-- External input to one pump-loop iteration: the cancellation flag value at
the top of the iteration, and what `capturer.capture_frame()` delivers this
tick (the callback runs zero or one times per tick). `injected` models
sink-ready signals emitted on the channel by anything other than the callback;
the program has no such emitter, so every execution of the program has
`injected = []` at every iteration — the field exists to state the spec's
"even if additional sink-ready signals were emitted" contingency. -/
structure LoopInput where
  ctrl_c : Bool
  delivery : Option (CaptureResult × DesktopFrame)
  injected : List NativeVideoSource
deriving DecidableEq, Repr

/-- The state the pump loop threads: the callback's captured state, the
channel, and the sinks published so far. -/
structure SysState where
  cb : CallbackState
  ch : Channel
  published : List NativeVideoSource
deriving DecidableEq, Repr

/-- The program state on entry to the pump loop. -/
def initialSysState : SysState :=
  { cb := initialCallbackState, ch := initialChannel, published := [] }

/-- The pump loop (lines 198–225) run on a finite trace of per-iteration
inputs. Each iteration, in source order: check the cancellation flag and break
if set; call `capturer.capture_frame()`, which synchronously invokes the
callback when a frame is delivered; then `try_recv` the channel and, on
success, build and publish a track from the received sink. The `try_recv` is
performed unconditionally on every iteration — the loop keeps no record of
whether a publish already happened. Returns `none` if a callback invocation
panics. -/
def runLoop : SysState → List LoopInput → Option (SysState × List Event)
  | s, [] => some (s, [])
  | s, inp :: rest =>
    if inp.ctrl_c then some (s, [Event.stopped])
    else
      match (match inp.delivery with
             | none => some (s.cb, s.ch, ([] : List Event))
             | some rf => callback s.cb s.ch rf.1 rf.2) with
      | none => none
      | some (cb1, ch1, evs1) =>
        let ch2 := inp.injected.foldl (fun c v => (Channel.trySend c v).1) ch1
        match Channel.try_recv ch2 with
        | (some vs, ch3) =>
          match runLoop { cb := cb1, ch := ch3, published := s.published ++ [vs] } rest with
          | none => none
          | some (s', evs') =>
            some (s', Event.captureTick :: (evs1 ++ [Event.published vs]) ++ evs')
        | (none, ch3) =>
          match runLoop { cb := cb1, ch := ch3, published := s.published } rest with
          | none => none
          | some (s', evs') => some (s', (Event.captureTick :: evs1) ++ evs')

/-- Number of publish transitions recorded in an event trace. -/
def countPublished (evs : List Event) : Nat :=
  evs.countP fun e => match e with | Event.published _ => true | _ => false

/-- Number of `NativeVideoSource::new` calls recorded in an event trace. -/
def countCreated (evs : List Event) : Nat :=
  evs.countP fun e => match e with | Event.sinkCreated _ => true | _ => false

/-- Number of accepted sink-ready notifications recorded in an event trace. -/
def countSent (evs : List Event) : Nat :=
  evs.countP fun e => match e with | Event.notifySent _ => true | _ => false

/-- Whether a frame sequence contains at least one ok-status delivery. -/
def hasOk (frames : List (CaptureResult × DesktopFrame)) : Bool :=
  frames.any fun p => p.1 == CaptureResult.Ok

/-- Credit accounting for the one-shot notification: a state that has not yet
created the sink holds one credit; creating the sink spends it on the single
send attempt. -/
def sinkCredit (st : CallbackState) : Nat :=
  match st.video_source with
  | some _ => 0
  | none => 1

/-- Kind of a desktop capture source (`DesktopCaptureSourceType`). -/
inductive DesktopCaptureSourceType where
  | Screen
  | Window
deriving DecidableEq, Repr

/-- A capture source as returned by `capturer.get_source_list()`: an
identifier, a human-readable title, and a kind. -/
structure CaptureSource where
  id : Nat
  title : String
  source_type : DesktopCaptureSourceType
deriving DecidableEq, Repr

/-- The display string used as the prompt option and the map key
(`s.to_string()` on lines 178–179). Its exact format is external to this
crate and immaterial to the claims below. -/
def CaptureSource.display (s : CaptureSource) : String :=
  s.title ++ Nat.repr s.id

/-- Source selection (lines 170–184). `picker` models the interactive
`inquire::Select` prompt: given the display strings, it returns the chosen one
or an error. The second component reports whether the picker was invoked. The
outer `Option` models panics: the prompt returning an error panics (line 182),
as does a chosen string missing from the map (`unwrap` on line 181). The
`HashMap` collected on line 179 keeps the last source inserted for a
duplicated display string, hence the lookup on the reversed list. -/
def selected_source (sources : List CaptureSource)
    (picker : List String → Except String String) :
    Option (Option CaptureSource) × Bool :=
  match sources with
  | [] => (some none, false)
  | [s] => (some (some s), false)
  | s1 :: s2 :: rest =>
    match picker ((s1 :: s2 :: rest).map CaptureSource.display) with
    | Except.ok s =>
      match (s1 :: s2 :: rest).reverse.find? (fun src => CaptureSource.display src == s) with
      | some src => (some (some src), true)
      | none => (none, true)
    | Except.error _ => (none, true)

/-- A 640x480 frame used in the concrete executions below. -/
def exFrame : DesktopFrame := { width := 640, height := 480, stride := 2560, data := [] }

/-- An 800x600 frame used to exercise a mid-session resolution change. -/
def exFrame2 : DesktopFrame := { width := 800, height := 600, stride := 3200, data := [] }

/-- A frame reporting a negative width, as an `i32` from the platform could. -/
def badFrame : DesktopFrame := { width := -1, height := 480, stride := 0, data := [] }

/-- The sink created by the first successful 640x480 frame. -/
def exSink : NativeVideoSource := { resolution := { width := 640, height := 480 } }

/-- The callback state after the first successful 640x480 frame, starting from
`initialCallbackState`. -/
def exState1 : CallbackState :=
  { stream_width := 640
    stream_height := 480
    video_frame :=
      { rotation := VideoRotation.VideoRotation0
        buffer := { allocId := 1, width := 640, height := 480 }
        timestamp_us := 0 }
    video_source := some exSink
    next_alloc_id := 2 }

/-- The channel contents after the first successful frame's notification. -/
def exChannel1 : Channel := { queue := [exSink] }

/-- The state after the resolution-change branch (lines 108–112) fires. -/
def resized (st : CallbackState) (w h : Nat) : CallbackState :=
  { st with
    stream_width := w
    stream_height := h
    video_frame := { st.video_frame with buffer := I420Buffer.new st.next_alloc_id w h }
    next_alloc_id := st.next_alloc_id + 1 }


/-!
## Theorems
-/

/-- Unfolding lemma: an ok invocation panics when the reported height is not
representable. -/
theorem callback_bad_height (st : CallbackState) (ch : Channel) (f : DesktopFrame)
    (hh : tryIntoU32 f.height = none) :
    callback st ch CaptureResult.Ok f = none := by
  unfold callback
  rw [hh]

/-- Unfolding lemma: an ok invocation panics when the reported width is not
representable. -/
theorem callback_bad_width (st : CallbackState) (ch : Channel) (f : DesktopFrame)
    (hgt : Nat) (hh : tryIntoU32 f.height = some hgt) (hw : tryIntoU32 f.width = none) :
    callback st ch CaptureResult.Ok f = none := by
  unfold callback
  rw [hh, hw]

/-- Unfolding lemma: ok invocation, resolution changed, sink already exists. -/
theorem callback_ok_changed_some (st : CallbackState) (ch : Channel) (f : DesktopFrame)
    (w h : Nat) (vs : NativeVideoSource)
    (hw : tryIntoU32 f.width = some w) (hh : tryIntoU32 f.height = some h)
    (hc : w ≠ st.stream_width ∨ h ≠ st.stream_height)
    (hv : st.video_source = some vs) :
    callback st ch CaptureResult.Ok f =
      some (resized st w h, ch,
        [Event.converted (resized st w h).video_frame.buffer,
         Event.frameCaptured vs (resized st w h).video_frame]) := by
  unfold callback
  rw [hh, hw]
  dsimp only
  rw [if_pos hc]
  show (match (resized st w h).video_source with
        | some vs => some (resized st w h, ch,
            [Event.converted (resized st w h).video_frame.buffer,
             Event.frameCaptured vs (resized st w h).video_frame])
        | none => _) = _
  rw [show (resized st w h).video_source = some vs from hv]

/-- Unfolding lemma: ok invocation, resolution unchanged, sink already
exists. -/
theorem callback_ok_same_some (st : CallbackState) (ch : Channel) (f : DesktopFrame)
    (w h : Nat) (vs : NativeVideoSource)
    (hw : tryIntoU32 f.width = some w) (hh : tryIntoU32 f.height = some h)
    (hcw : w = st.stream_width) (hch : h = st.stream_height)
    (hv : st.video_source = some vs) :
    callback st ch CaptureResult.Ok f =
      some (st, ch,
        [Event.converted st.video_frame.buffer,
         Event.frameCaptured vs st.video_frame]) := by
  unfold callback
  rw [hh, hw]
  dsimp only
  rw [if_neg (by simp [hcw, hch])]
  rw [show st.video_source = some vs from hv]

/-- Unfolding lemma: ok invocation, resolution changed, no sink yet. -/
theorem callback_ok_changed_none (st : CallbackState) (ch : Channel) (f : DesktopFrame)
    (w h : Nat)
    (hw : tryIntoU32 f.width = some w) (hh : tryIntoU32 f.height = some h)
    (hc : w ≠ st.stream_width ∨ h ≠ st.stream_height)
    (hv : st.video_source = none) :
    callback st ch CaptureResult.Ok f =
      some ({ resized st w h with
                video_source := some { resolution := { width := w, height := h } } },
        (ch.trySend { resolution := { width := w, height := h } }).1,
        [Event.converted (resized st w h).video_frame.buffer,
         Event.sinkCreated { width := w, height := h },
         if (ch.trySend { resolution := { width := w, height := h } }).2 then
           Event.notifySent { resolution := { width := w, height := h } }
         else Event.notifyDropped]) := by
  unfold callback
  rw [hh, hw]
  dsimp only
  rw [if_pos hc]
  show (match (resized st w h).video_source with
        | some vs => some (resized st w h, ch,
            [Event.converted (resized st w h).video_frame.buffer,
             Event.frameCaptured vs (resized st w h).video_frame])
        | none => _) = _
  rw [show (resized st w h).video_source = none from hv]
  rfl

/-- Unfolding lemma: ok invocation, resolution unchanged, no sink yet. -/
theorem callback_ok_same_none (st : CallbackState) (ch : Channel) (f : DesktopFrame)
    (w h : Nat)
    (hw : tryIntoU32 f.width = some w) (hh : tryIntoU32 f.height = some h)
    (hcw : w = st.stream_width) (hch : h = st.stream_height)
    (hv : st.video_source = none) :
    callback st ch CaptureResult.Ok f =
      some ({ st with
                video_source :=
                  some { resolution := { width := st.stream_width,
                                         height := st.stream_height } } },
        (ch.trySend { resolution := { width := st.stream_width,
                                      height := st.stream_height } }).1,
        [Event.converted st.video_frame.buffer,
         Event.sinkCreated { width := st.stream_width, height := st.stream_height },
         if (ch.trySend { resolution := { width := st.stream_width,
                                          height := st.stream_height } }).2 then
           Event.notifySent { resolution := { width := st.stream_width,
                                              height := st.stream_height } }
         else Event.notifyDropped]) := by
  unfold callback
  rw [hh, hw]
  dsimp only
  rw [if_neg (by simp [hcw, hch])]
  rw [show st.video_source = none from hv]


/-- C6: an invocation whose status is a transient or permanent error returns
immediately: the captured state (known resolution, frame buffer, optional
sink) and the channel are unchanged, and no conversion, sink write, or
notification occurs (no observable action at all). -/
theorem C6_error_invocation_touches_nothing (st : CallbackState) (ch : Channel)
    (f : DesktopFrame) :
    callback st ch CaptureResult.ErrorTemporary f = some (st, ch, []) ∧
    callback st ch CaptureResult.ErrorPermanent f = some (st, ch, []) :=
  ⟨rfl, rfl⟩

/-- C8: the cancellation check precedes the capture tick: whenever the flag is
set at the top of an iteration — in particular before the first iteration —
the loop exits at once with the state unchanged, performing no capture tick
(the callback never runs) and emitting only the stop observation. Quantifying
over `s` and `rest` makes this hold at every iteration, so no tick is issued
after cancellation is observed. -/
theorem C8_cancellation_checked_before_tick (s : SysState) (inp : LoopInput)
    (rest : List LoopInput) (hc : inp.ctrl_c = true) :
    runLoop s (inp :: rest) = some (s, [Event.stopped]) := by
  simp [runLoop, hc]

/-- Witness for C8 at a concrete input: flag set before the first iteration,
zero ticks, immediate termination. -/
theorem C8_witness :
    runLoop initialSysState [{ ctrl_c := true, delivery := none, injected := [] }] =
      some (initialSysState, [Event.stopped]) :=
  C8_cancellation_checked_before_tick initialSysState
    { ctrl_c := true, delivery := none, injected := [] } [] rfl

/-- Unfolding equation for `selected_source` on a list of two or more
sources. -/
theorem selected_source_cons2 (s1 s2 : CaptureSource) (rest : List CaptureSource)
    (picker : List String → Except String String) :
    selected_source (s1 :: s2 :: rest) picker =
      match picker ((s1 :: s2 :: rest).map CaptureSource.display) with
      | Except.ok s =>
        match (s1 :: s2 :: rest).reverse.find? (fun src => CaptureSource.display src == s) with
        | some src => (some (some src), true)
        | none => (none, true)
      | Except.error _ => (none, true) := rfl

/-- C9: selection over the registry's source list: an empty list selects
nothing, a singleton list selects its entry without invoking the interactive
picker, and a list of two or more entries delegates to the picker. -/
theorem C9_selection_singleton_skips_picker (picker : List String → Except String String)
    (s : CaptureSource) (sources : List CaptureSource) :
    selected_source [] picker = (some none, false) ∧
    selected_source [s] picker = (some (some s), false) ∧
    (2 ≤ sources.length → (selected_source sources picker).2 = true) := by
  refine ⟨rfl, rfl, ?_⟩
  intro hlen
  match sources with
  | [] => simp at hlen
  | [a] => simp at hlen
  | a :: b :: rest =>
    show (selected_source (a :: b :: rest) picker).2 = true
    rw [selected_source_cons2]
    split
    · split <;> rfl
    · rfl

/-- Witness for C9 at concrete inputs: a singleton list yields its entry with
the picker uninvoked, and a two-element list invokes the picker. -/
theorem C9_witness :
    selected_source [] (fun _ => Except.error "") = (some none, false) ∧
    selected_source [{ id := 0, title := "a", source_type := DesktopCaptureSourceType.Screen }]
      (fun _ => Except.error "") =
      (some (some { id := 0, title := "a", source_type := DesktopCaptureSourceType.Screen }),
        false) ∧
    (2 ≤ ([{ id := 0, title := "a", source_type := DesktopCaptureSourceType.Screen },
           { id := 1, title := "b", source_type := DesktopCaptureSourceType.Window }] :
        List CaptureSource).length →
      (selected_source
        [{ id := 0, title := "a", source_type := DesktopCaptureSourceType.Screen },
         { id := 1, title := "b", source_type := DesktopCaptureSourceType.Window }]
        (fun _ => Except.error "")).2 = true) :=
  C9_selection_singleton_skips_picker (fun _ => Except.error "")
    { id := 0, title := "a", source_type := DesktopCaptureSourceType.Screen }
    [{ id := 0, title := "a", source_type := DesktopCaptureSourceType.Screen },
     { id := 1, title := "b", source_type := DesktopCaptureSourceType.Window }]

/-- C10: the callback converts the frame's reported `i32` dimensions with
`try_into().unwrap()`: if either dimension is out of range for the unsigned
target (in particular negative), the invocation panics rather than skipping
the frame; when both are representable, the invocation completes. -/
theorem C10_dimension_unwrap_panics (st : CallbackState) (ch : Channel) (f : DesktopFrame) :
    ((tryIntoU32 f.width = none ∨ tryIntoU32 f.height = none) →
      callback st ch CaptureResult.Ok f = none) ∧
    ((0 ≤ f.width ∧ f.width < 2 ^ 32 ∧ 0 ≤ f.height ∧ f.height < 2 ^ 32) →
      (callback st ch CaptureResult.Ok f).isSome = true) := by
  constructor
  · intro hbad
    rcases hbad with hw | hh
    · cases hh2 : tryIntoU32 f.height with
      | none => exact callback_bad_height st ch f hh2
      | some hgt => exact callback_bad_width st ch f hgt hh2 hw
    · exact callback_bad_height st ch f hh
  · rintro ⟨hw0, hw1, hh0, hh1⟩
    have hw : tryIntoU32 f.width = some f.width.toNat := by
      simp only [tryIntoU32, if_pos (And.intro hw0 hw1)]
    have hh : tryIntoU32 f.height = some f.height.toNat := by
      simp only [tryIntoU32, if_pos (And.intro hh0 hh1)]
    rcases hv : st.video_source with _ | vs
    · by_cases hc : f.width.toNat ≠ st.stream_width ∨ f.height.toNat ≠ st.stream_height
      · rw [callback_ok_changed_none st ch f _ _ hw hh hc hv]
        rfl
      · push_neg at hc
        rw [callback_ok_same_none st ch f _ _ hw hh hc.1 hc.2 hv]
        rfl
    · by_cases hc : f.width.toNat ≠ st.stream_width ∨ f.height.toNat ≠ st.stream_height
      · rw [callback_ok_changed_some st ch f _ _ vs hw hh hc hv]
        rfl
      · push_neg at hc
        rw [callback_ok_same_some st ch f _ _ vs hw hh hc.1 hc.2 hv]
        rfl

/-- Witness for C10 at concrete inputs: a width of -1 panics; a 640x480 frame
completes. -/
theorem C10_witness :
    callback initialCallbackState initialChannel CaptureResult.Ok badFrame = none ∧
    (callback initialCallbackState initialChannel CaptureResult.Ok exFrame).isSome = true :=
  ⟨(C10_dimension_unwrap_panics initialCallbackState initialChannel badFrame).1
      (Or.inl (by decide)),
   (C10_dimension_unwrap_panics initialCallbackState initialChannel exFrame).2
      (by refine ⟨by decide, by decide, by decide, by decide⟩)⟩

/-- C2 counterexample: starting from the program's initial state, run one
successful 640x480 frame (creating the sink), then invoke the callback again
at wall-clock time 1000 µs with another successful frame. The frame written
into the sink carries `timestamp_us = 0` — the value set at initialization —
not the current time 1000. -/
theorem C2_counterexample :
    runCallbacks initialCallbackState initialChannel [(CaptureResult.Ok, exFrame)] =
      some (exState1, exChannel1,
        [Event.converted { allocId := 1, width := 640, height := 480 },
         Event.sinkCreated { width := 640, height := 480 },
         Event.notifySent exSink]) ∧
    callbackAt 1000 exState1 exChannel1 CaptureResult.Ok exFrame =
      some (exState1, exChannel1,
        [Event.converted { allocId := 1, width := 640, height := 480 },
         Event.frameCaptured exSink
           { rotation := VideoRotation.VideoRotation0
             buffer := { allocId := 1, width := 640, height := 480 }
             timestamp_us := 0 }]) ∧
    (0 : Int) ≠ 1000 := by
  refine ⟨by decide, by decide, by decide⟩

/-- C2 (amended): the callback never writes the frame's timestamp: after any
invocation at any wall-clock time, the frame's `timestamp_us` is unchanged,
and every frame written into the sink carries the state's existing timestamp
(0, from initialization) — not the time of conversion. -/
theorem C2_amended_timestamp_never_updated (now : Int) (st : CallbackState)
    (ch : Channel) (r : CaptureResult) (f : DesktopFrame) (st' : CallbackState)
    (ch' : Channel) (evs : List Event)
    (h : callbackAt now st ch r f = some (st', ch', evs)) :
    st'.video_frame.timestamp_us = st.video_frame.timestamp_us ∧
    ∀ vs vf, Event.frameCaptured vs vf ∈ evs →
      vf.timestamp_us = st.video_frame.timestamp_us := by
  have h' : callback st ch r f = some (st', ch', evs) := h
  clear h
  cases r with
  | ErrorTemporary =>
    rw [show callback st ch CaptureResult.ErrorTemporary f = some (st, ch, []) from rfl] at h'
    simp only [Option.some.injEq, Prod.mk.injEq] at h'
    obtain ⟨h1, h2, h3⟩ := h'
    subst h1; subst h3
    exact ⟨rfl, by intro vs vf hm; simp at hm⟩
  | ErrorPermanent =>
    rw [show callback st ch CaptureResult.ErrorPermanent f = some (st, ch, []) from rfl] at h'
    simp only [Option.some.injEq, Prod.mk.injEq] at h'
    obtain ⟨h1, h2, h3⟩ := h'
    subst h1; subst h3
    exact ⟨rfl, by intro vs vf hm; simp at hm⟩
  | Ok =>
    cases hh : tryIntoU32 f.height with
    | none =>
      rw [callback_bad_height st ch f hh] at h'
      exact absurd h' (by simp)
    | some hgt =>
      cases hw : tryIntoU32 f.width with
      | none =>
        rw [callback_bad_width st ch f hgt hh hw] at h'
        exact absurd h' (by simp)
      | some wid =>
        rcases hv : st.video_source with _ | vs
        · by_cases hc : wid ≠ st.stream_width ∨ hgt ≠ st.stream_height
          · rw [callback_ok_changed_none st ch f wid hgt hw hh hc hv] at h'
            simp only [Option.some.injEq, Prod.mk.injEq] at h'
            obtain ⟨h1, h2, h3⟩ := h'
            subst h1; subst h3
            refine ⟨rfl, ?_⟩
            intro vsx vfx hm
            simp only [List.mem_cons, List.not_mem_nil, or_false] at hm
            rcases hm with hm | hm | hm
            · exact absurd hm (by simp)
            · exact absurd hm (by simp)
            · revert hm
              split <;> intro hm <;> exact absurd hm (by simp)
          · push_neg at hc
            rw [callback_ok_same_none st ch f wid hgt hw hh hc.1 hc.2 hv] at h'
            simp only [Option.some.injEq, Prod.mk.injEq] at h'
            obtain ⟨h1, h2, h3⟩ := h'
            subst h1; subst h3
            refine ⟨rfl, ?_⟩
            intro vsx vfx hm
            simp only [List.mem_cons, List.not_mem_nil, or_false] at hm
            rcases hm with hm | hm | hm
            · exact absurd hm (by simp)
            · exact absurd hm (by simp)
            · revert hm
              split <;> intro hm <;> exact absurd hm (by simp)
        · by_cases hc : wid ≠ st.stream_width ∨ hgt ≠ st.stream_height
          · rw [callback_ok_changed_some st ch f wid hgt vs hw hh hc hv] at h'
            simp only [Option.some.injEq, Prod.mk.injEq] at h'
            obtain ⟨h1, h2, h3⟩ := h'
            subst h1; subst h3
            refine ⟨rfl, ?_⟩
            intro vsx vfx hm
            simp only [List.mem_cons, List.not_mem_nil, or_false] at hm
            rcases hm with hm | hm
            · exact absurd hm (by simp)
            · simp only [Event.frameCaptured.injEq] at hm
              obtain ⟨hm1, hm2⟩ := hm
              subst hm2
              rfl
          · push_neg at hc
            rw [callback_ok_same_some st ch f wid hgt vs hw hh hc.1 hc.2 hv] at h'
            simp only [Option.some.injEq, Prod.mk.injEq] at h'
            obtain ⟨h1, h2, h3⟩ := h'
            subst h1; subst h3
            refine ⟨rfl, ?_⟩
            intro vsx vfx hm
            simp only [List.mem_cons, List.not_mem_nil, or_false] at hm
            rcases hm with hm | hm
            · exact absurd hm (by simp)
            · simp only [Event.frameCaptured.injEq] at hm
              obtain ⟨hm1, hm2⟩ := hm
              subst hm2
              rfl

/-- Witness for the amended C2 at a concrete input: the second successful
frame, processed at wall-clock time 1000, writes a frame whose timestamp is
the state's stored 0. -/
theorem C2_amended_witness :
    exState1.video_frame.timestamp_us = exState1.video_frame.timestamp_us ∧
    ∀ vs vf, Event.frameCaptured vs vf ∈
        [Event.converted { allocId := 1, width := 640, height := 480 },
         Event.frameCaptured exSink
           { rotation := VideoRotation.VideoRotation0
             buffer := { allocId := 1, width := 640, height := 480 }
             timestamp_us := 0 }] →
      vf.timestamp_us = exState1.video_frame.timestamp_us :=
  C2_amended_timestamp_never_updated 1000 exState1 exChannel1 CaptureResult.Ok exFrame
    exState1 exChannel1
    [Event.converted { allocId := 1, width := 640, height := 480 },
     Event.frameCaptured exSink
       { rotation := VideoRotation.VideoRotation0
         buffer := { allocId := 1, width := 640, height := 480 }
         timestamp_us := 0 }]
    (by decide)

/-- C4: on the first successful frame (no sink yet) reporting dimensions
(w, h), the callback updates the known resolution to (w, h), ends with the
frame buffer allocated at exactly (w, h) — reallocated afresh whenever (w, h)
differs from the current placeholder — and creates the sink with resolution
exactly (w, h): the first successful frame's resolution, not the placeholder
guess. The placeholder `(st.stream_width, st.stream_height)` is arbitrary. -/
theorem C4_first_frame_uses_discovered_resolution (st : CallbackState) (ch : Channel)
    (f : DesktopFrame) (w h : Nat)
    (hv : st.video_source = none)
    (hw : tryIntoU32 f.width = some w) (hh : tryIntoU32 f.height = some h)
    (hbw : st.video_frame.buffer.width = st.stream_width)
    (hbh : st.video_frame.buffer.height = st.stream_height) :
    ∃ st' ch' evs, callback st ch CaptureResult.Ok f = some (st', ch', evs) ∧
      st'.stream_width = w ∧ st'.stream_height = h ∧
      st'.video_frame.buffer.width = w ∧ st'.video_frame.buffer.height = h ∧
      st'.video_source = some { resolution := { width := w, height := h } } ∧
      Event.sinkCreated { width := w, height := h } ∈ evs ∧
      ((w ≠ st.stream_width ∨ h ≠ st.stream_height) →
        st'.video_frame.buffer = I420Buffer.new st.next_alloc_id w h) := by
  by_cases hc : w ≠ st.stream_width ∨ h ≠ st.stream_height
  · refine ⟨_, _, _, callback_ok_changed_none st ch f w h hw hh hc hv,
      rfl, rfl, rfl, rfl, rfl, ?_, fun _ => rfl⟩
    simp
  · push_neg at hc
    obtain ⟨hcw, hch⟩ := hc
    subst hcw
    subst hch
    refine ⟨_, _, _, callback_ok_same_none st ch f _ _ hw hh rfl rfl hv,
      rfl, rfl, hbw, hbh, rfl, ?_, ?_⟩
    · simp
    · intro hcontr
      rcases hcontr with hx | hx <;> exact absurd rfl hx

/-- Witness for C4 at a concrete input: the program's initial placeholder is
1920x1080 and the first successful frame is 640x480; the sink is created at
640x480 and the buffer reallocated. -/
theorem C4_witness :
    ∃ st' ch' evs,
      callback initialCallbackState initialChannel CaptureResult.Ok exFrame =
        some (st', ch', evs) ∧
      st'.stream_width = 640 ∧ st'.stream_height = 480 ∧
      st'.video_frame.buffer.width = 640 ∧ st'.video_frame.buffer.height = 480 ∧
      st'.video_source = some { resolution := { width := 640, height := 480 } } ∧
      Event.sinkCreated { width := 640, height := 480 } ∈ evs ∧
      ((640 ≠ initialCallbackState.stream_width ∨ 480 ≠ initialCallbackState.stream_height) →
        st'.video_frame.buffer = I420Buffer.new initialCallbackState.next_alloc_id 640 480) :=
  C4_first_frame_uses_discovered_resolution initialCallbackState initialChannel exFrame
    640 480 rfl (by decide) (by decide) rfl rfl

/-- C5: with the sink already created and the previous frame's resolution
(w1, h1) recorded in the state (and the buffer sized (w1, h1)), a successful
frame reporting (w2, h2) ≠ (w1, h1) causes the buffer to be reallocated — a
fresh allocation, not the (w1, h1)-sized one — before conversion, so the
converted output written into the sink has dimensions exactly (w2, h2); when
the resolution is unchanged the very same allocation is reused. -/
theorem C5_resolution_change_reallocates_buffer (st : CallbackState) (ch : Channel)
    (f : DesktopFrame) (w2 h2 : Nat) (vs : NativeVideoSource)
    (hv : st.video_source = some vs)
    (hw : tryIntoU32 f.width = some w2) (hh : tryIntoU32 f.height = some h2)
    (hbw : st.video_frame.buffer.width = st.stream_width)
    (hbh : st.video_frame.buffer.height = st.stream_height)
    (hfresh : st.video_frame.buffer.allocId < st.next_alloc_id) :
    ∃ st' ch' evs, callback st ch CaptureResult.Ok f = some (st', ch', evs) ∧
      st'.video_frame.buffer.width = w2 ∧ st'.video_frame.buffer.height = h2 ∧
      Event.converted st'.video_frame.buffer ∈ evs ∧
      Event.frameCaptured vs st'.video_frame ∈ evs ∧
      ((w2 ≠ st.stream_width ∨ h2 ≠ st.stream_height) →
        st'.video_frame.buffer.allocId ≠ st.video_frame.buffer.allocId) ∧
      ((w2 = st.stream_width ∧ h2 = st.stream_height) →
        st'.video_frame.buffer = st.video_frame.buffer) := by
  by_cases hc : w2 ≠ st.stream_width ∨ h2 ≠ st.stream_height
  · refine ⟨_, _, _, callback_ok_changed_some st ch f w2 h2 vs hw hh hc hv,
      rfl, rfl, ?_, ?_, ?_, ?_⟩
    · simp
    · simp
    · intro _
      show st.next_alloc_id ≠ st.video_frame.buffer.allocId
      omega
    · intro hceq
      rcases hc with hx | hx
      · exact absurd hceq.1 hx
      · exact absurd hceq.2 hx
  · push_neg at hc
    obtain ⟨hcw, hch⟩ := hc
    refine ⟨_, _, _, callback_ok_same_some st ch f w2 h2 vs hw hh hcw hch hv,
      ?_, ?_, ?_, ?_, ?_, fun _ => rfl⟩
    · rw [hbw]; exact hcw.symm
    · rw [hbh]; exact hch.symm
    · simp
    · simp
    · intro hcontr
      rcases hcontr with hx | hx
      · exact absurd hcw hx
      · exact absurd hch hx

/-- Witness for C5 at a concrete input: after the first 640x480 frame, an
800x600 frame arrives; the buffer is reallocated to 800x600. -/
theorem C5_witness :
    ∃ st' ch' evs,
      callback exState1 exChannel1 CaptureResult.Ok exFrame2 = some (st', ch', evs) ∧
      st'.video_frame.buffer.width = 800 ∧ st'.video_frame.buffer.height = 600 ∧
      Event.converted st'.video_frame.buffer ∈ evs ∧
      Event.frameCaptured exSink st'.video_frame ∈ evs ∧
      ((800 ≠ exState1.stream_width ∨ 600 ≠ exState1.stream_height) →
        st'.video_frame.buffer.allocId ≠ exState1.video_frame.buffer.allocId) ∧
      ((800 = exState1.stream_width ∧ 600 = exState1.stream_height) →
        st'.video_frame.buffer = exState1.video_frame.buffer) :=
  C5_resolution_change_reallocates_buffer exState1 exChannel1 exFrame2 800 600 exSink
    rfl (by decide) (by decide) rfl rfl (by decide)

/-- C7: on the first successful frame the sink-ready notification is a single
non-blocking send attempt: if the channel has a free slot the value is
enqueued, otherwise the attempt is abandoned with the channel untouched — in
both cases the callback completes (storing the sink) without blocking or
retrying — and the channel's capacity is exactly 1, so a single queued item is
always accepted. -/
theorem C7_notification_single_attempt (st : CallbackState) (ch : Channel)
    (f : DesktopFrame) (w h : Nat)
    (hv : st.video_source = none)
    (hw : tryIntoU32 f.width = some w) (hh : tryIntoU32 f.height = some h) :
    channelCapacity = 1 ∧
    ∃ st' ch' evs vs, callback st ch CaptureResult.Ok f = some (st', ch', evs) ∧
      st'.video_source = some vs ∧
      (ch.queue.length < channelCapacity →
        ch'.queue = ch.queue ++ [vs] ∧ Event.notifySent vs ∈ evs) ∧
      (¬ ch.queue.length < channelCapacity →
        ch' = ch ∧ Event.notifyDropped ∈ evs) := by
  refine ⟨rfl, ?_⟩
  by_cases hc : w ≠ st.stream_width ∨ h ≠ st.stream_height
  · refine ⟨_, _, _, _, callback_ok_changed_none st ch f w h hw hh hc hv, rfl, ?_, ?_⟩
    · intro hsp
      constructor
      · simp [Channel.trySend, hsp]
      · simp [Channel.trySend, hsp]
    · intro hsp
      constructor
      · simp [Channel.trySend, hsp]
      · simp [Channel.trySend, hsp]
  · push_neg at hc
    obtain ⟨hcw, hch⟩ := hc
    refine ⟨_, _, _, _, callback_ok_same_none st ch f w h hw hh hcw hch hv, rfl, ?_, ?_⟩
    · intro hsp
      constructor
      · simp [Channel.trySend, hsp]
      · simp [Channel.trySend, hsp]
    · intro hsp
      constructor
      · simp [Channel.trySend, hsp]
      · simp [Channel.trySend, hsp]

/-- Witness for C7 at a concrete input: the program's channel starts empty, so
the first (and only) send attempt is accepted. -/
theorem C7_witness :
    channelCapacity = 1 ∧
    ∃ st' ch' evs vs,
      callback initialCallbackState initialChannel CaptureResult.Ok exFrame =
        some (st', ch', evs) ∧
      st'.video_source = some vs ∧
      (initialChannel.queue.length < channelCapacity →
        ch'.queue = initialChannel.queue ++ [vs] ∧ Event.notifySent vs ∈ evs) ∧
      (¬ initialChannel.queue.length < channelCapacity →
        ch' = initialChannel ∧ Event.notifyDropped ∈ evs) :=
  C7_notification_single_attempt initialCallbackState initialChannel exFrame 640 480
    rfl (by decide) (by decide)

/-- Event counts distribute over concatenation of traces. -/
theorem countCreated_append (a b : List Event) :
    countCreated (a ++ b) = countCreated a + countCreated b :=
  List.countP_append _ _ _

/-- Event counts distribute over concatenation of traces. -/
theorem countSent_append (a b : List Event) :
    countSent (a ++ b) = countSent a + countSent b :=
  List.countP_append _ _ _

/-- Once the sink exists, an invocation preserves it, leaves the channel
untouched, and creates no sink and sends no notification. -/
theorem callback_with_sink (st : CallbackState) (ch : Channel) (r : CaptureResult)
    (f : DesktopFrame) (vs : NativeVideoSource) (st1 : CallbackState) (ch1 : Channel)
    (evs1 : List Event) (hv : st.video_source = some vs)
    (h : callback st ch r f = some (st1, ch1, evs1)) :
    st1.video_source = some vs ∧ ch1 = ch ∧ countCreated evs1 = 0 ∧ countSent evs1 = 0 := by
  cases r with
  | ErrorTemporary =>
    rw [show callback st ch CaptureResult.ErrorTemporary f = some (st, ch, []) from rfl] at h
    simp only [Option.some.injEq, Prod.mk.injEq] at h
    obtain ⟨h1, h2, h3⟩ := h
    subst h1; subst h2; subst h3
    exact ⟨hv, rfl, rfl, rfl⟩
  | ErrorPermanent =>
    rw [show callback st ch CaptureResult.ErrorPermanent f = some (st, ch, []) from rfl] at h
    simp only [Option.some.injEq, Prod.mk.injEq] at h
    obtain ⟨h1, h2, h3⟩ := h
    subst h1; subst h2; subst h3
    exact ⟨hv, rfl, rfl, rfl⟩
  | Ok =>
    cases hh : tryIntoU32 f.height with
    | none =>
      rw [callback_bad_height st ch f hh] at h
      exact absurd h (by simp)
    | some hgt =>
      cases hw2 : tryIntoU32 f.width with
      | none =>
        rw [callback_bad_width st ch f hgt hh hw2] at h
        exact absurd h (by simp)
      | some wid =>
        by_cases hc : wid ≠ st.stream_width ∨ hgt ≠ st.stream_height
        · rw [callback_ok_changed_some st ch f wid hgt vs hw2 hh hc hv] at h
          simp only [Option.some.injEq, Prod.mk.injEq] at h
          obtain ⟨h1, h2, h3⟩ := h
          subst h1; subst h2; subst h3
          exact ⟨hv, rfl, rfl, rfl⟩
        · push_neg at hc
          rw [callback_ok_same_some st ch f wid hgt vs hw2 hh hc.1 hc.2 hv] at h
          simp only [Option.some.injEq, Prod.mk.injEq] at h
          obtain ⟨h1, h2, h3⟩ := h
          subst h1; subst h2; subst h3
          exact ⟨hv, rfl, rfl, rfl⟩

/-- Once the sink exists, an arbitrarily long run of further invocations
creates no sink and sends no notification. -/
theorem runCallbacks_with_sink (frames : List (CaptureResult × DesktopFrame)) :
    ∀ st ch vs out, st.video_source = some vs →
      runCallbacks st ch frames = some out →
      countCreated out.2.2 = 0 ∧ countSent out.2.2 = 0 := by
  induction frames with
  | nil =>
    intro st ch vs out hv h
    simp only [runCallbacks, Option.some.injEq] at h
    subst h
    exact ⟨rfl, rfl⟩
  | cons p rest ih =>
    intro st ch vs out hv h
    obtain ⟨r, f⟩ := p
    simp only [runCallbacks] at h
    cases hcb : callback st ch r f with
    | none => rw [hcb] at h; exact absurd h (by simp)
    | some t =>
      obtain ⟨st1, ch1, evs1⟩ := t
      rw [hcb] at h
      dsimp only at h
      cases hrest : runCallbacks st1 ch1 rest with
      | none => rw [hrest] at h; exact absurd h (by simp)
      | some out2 =>
        rw [hrest] at h
        dsimp only at h
        obtain ⟨st2, ch2, evs2⟩ := out2
        simp only [Option.some.injEq] at h
        subst h
        obtain ⟨hv1, _, hc1, hs1⟩ := callback_with_sink st ch r f vs st1 ch1 evs1 hv hcb
        obtain ⟨hc2, hs2⟩ := ih st1 ch1 vs (st2, ch2, evs2) hv1 hrest
        constructor
        · rw [countCreated_append, hc1, hc2]
        · rw [countSent_append, hs1, hs2]

/-- From a state with no sink and a channel with a free slot, a run creates
the sink and sends the notification exactly once if it contains a successful
frame, and not at all otherwise. -/
theorem runCallbacks_until_sink (frames : List (CaptureResult × DesktopFrame)) :
    ∀ st ch out, st.video_source = none → ch.queue.length < channelCapacity →
      runCallbacks st ch frames = some out →
      countCreated out.2.2 = (if hasOk frames then 1 else 0) ∧
      countSent out.2.2 = (if hasOk frames then 1 else 0) := by
  induction frames with
  | nil =>
    intro st ch out hv hsp h
    simp only [runCallbacks, Option.some.injEq] at h
    subst h
    exact ⟨rfl, rfl⟩
  | cons p rest ih =>
    intro st ch out hv hsp h
    obtain ⟨r, f⟩ := p
    simp only [runCallbacks] at h
    cases r with
    | ErrorTemporary =>
      rw [show callback st ch CaptureResult.ErrorTemporary f = some (st, ch, []) from rfl] at h
      dsimp only at h
      cases hrest : runCallbacks st ch rest with
      | none => rw [hrest] at h; exact absurd h (by simp)
      | some out2 =>
        rw [hrest] at h
        dsimp only at h
        simp only [Option.some.injEq] at h
        subst h
        have hok : hasOk ((CaptureResult.ErrorTemporary, f) :: rest) = hasOk rest := by
          simp [hasOk]
        rw [hok]
        simpa using ih st ch out2 hv hsp hrest
    | ErrorPermanent =>
      rw [show callback st ch CaptureResult.ErrorPermanent f = some (st, ch, []) from rfl] at h
      dsimp only at h
      cases hrest : runCallbacks st ch rest with
      | none => rw [hrest] at h; exact absurd h (by simp)
      | some out2 =>
        rw [hrest] at h
        dsimp only at h
        simp only [Option.some.injEq] at h
        subst h
        have hok : hasOk ((CaptureResult.ErrorPermanent, f) :: rest) = hasOk rest := by
          simp [hasOk]
        rw [hok]
        simpa using ih st ch out2 hv hsp hrest
    | Ok =>
      have hok : hasOk ((CaptureResult.Ok, f) :: rest) = true := by simp [hasOk]
      rw [hok]
      cases hh : tryIntoU32 f.height with
      | none =>
        rw [callback_bad_height st ch f hh] at h
        exact absurd h (by simp)
      | some hgt =>
        cases hw2 : tryIntoU32 f.width with
        | none =>
          rw [callback_bad_width st ch f hgt hh hw2] at h
          exact absurd h (by simp)
        | some wid =>
          have hsend : ch.trySend { resolution := { width := wid, height := hgt } } =
              ({ queue := ch.queue ++ [{ resolution := { width := wid, height := hgt } }] },
                true) := by
            simp [Channel.trySend, hsp]
          by_cases hcnd : wid ≠ st.stream_width ∨ hgt ≠ st.stream_height
          · rw [callback_ok_changed_none st ch f wid hgt hw2 hh hcnd hv] at h
            dsimp only at h
            cases hrest : runCallbacks
                { resized st wid hgt with
                    video_source := some { resolution := { width := wid, height := hgt } } }
                (ch.trySend { resolution := { width := wid, height := hgt } }).1 rest with
            | none => rw [hrest] at h; exact absurd h (by simp)
            | some out2 =>
              rw [hrest] at h
              dsimp only at h
              simp only [Option.some.injEq] at h
              subst h
              obtain ⟨hc2, hs2⟩ := runCallbacks_with_sink rest _ _
                { resolution := { width := wid, height := hgt } } out2 rfl hrest
              constructor
              · rw [countCreated_append, hc2]
                simp [countCreated, hsend]
              · rw [countSent_append, hs2]
                simp [countSent, hsend]
          · push_neg at hcnd
            rw [callback_ok_same_none st ch f wid hgt hw2 hh hcnd.1 hcnd.2 hv] at h
            dsimp only at h
            rw [hcnd.1, hcnd.2] at hsend
            cases hrest : runCallbacks
                { st with
                    video_source :=
                      some { resolution := { width := st.stream_width,
                                             height := st.stream_height } } }
                (ch.trySend { resolution := { width := st.stream_width,
                                              height := st.stream_height } }).1 rest with
            | none => rw [hrest] at h; exact absurd h (by simp)
            | some out2 =>
              rw [hrest] at h
              dsimp only at h
              simp only [Option.some.injEq] at h
              subst h
              obtain ⟨hc2, hs2⟩ := runCallbacks_with_sink rest _ _
                { resolution := { width := st.stream_width, height := st.stream_height } }
                out2 rfl hrest
              constructor
              · rw [countCreated_append, hc2]
                simp [countCreated, hsend]
              · rw [countSent_append, hs2]
                simp [countSent, hsend]

/-- C3: starting from the program's initial state (no sink, empty channel),
any run of callback invocations creates the `NativeVideoSource` exactly once
and sends the sink-ready notification exactly once if the run contains at
least one ok-status frame (and zero times otherwise) — regardless of how many
further successful frames or resolution changes follow the first. -/
theorem C3_sink_created_exactly_once (frames : List (CaptureResult × DesktopFrame))
    (out : CallbackState × Channel × List Event)
    (h : runCallbacks initialCallbackState initialChannel frames = some out) :
    countCreated out.2.2 = (if hasOk frames then 1 else 0) ∧
    countSent out.2.2 = (if hasOk frames then 1 else 0) :=
  runCallbacks_until_sink frames initialCallbackState initialChannel out rfl
    (by decide) h

/-- Witness for C3 at a concrete input: one error frame, then two successful
frames with a resolution change in between — one creation, one notification. -/
theorem C3_witness :
    countCreated
        [Event.converted { allocId := 1, width := 640, height := 480 },
         Event.sinkCreated { width := 640, height := 480 },
         Event.notifySent exSink,
         Event.converted { allocId := 2, width := 800, height := 600 },
         Event.frameCaptured exSink
           { rotation := VideoRotation.VideoRotation0
             buffer := { allocId := 2, width := 800, height := 600 }
             timestamp_us := 0 }] =
      (if hasOk [(CaptureResult.ErrorTemporary, exFrame), (CaptureResult.Ok, exFrame),
                 (CaptureResult.Ok, exFrame2)] then 1 else 0) ∧
    countSent
        [Event.converted { allocId := 1, width := 640, height := 480 },
         Event.sinkCreated { width := 640, height := 480 },
         Event.notifySent exSink,
         Event.converted { allocId := 2, width := 800, height := 600 },
         Event.frameCaptured exSink
           { rotation := VideoRotation.VideoRotation0
             buffer := { allocId := 2, width := 800, height := 600 }
             timestamp_us := 0 }] =
      (if hasOk [(CaptureResult.ErrorTemporary, exFrame), (CaptureResult.Ok, exFrame),
                 (CaptureResult.Ok, exFrame2)] then 1 else 0) :=
  C3_sink_created_exactly_once
    [(CaptureResult.ErrorTemporary, exFrame), (CaptureResult.Ok, exFrame),
     (CaptureResult.Ok, exFrame2)]
    ({ stream_width := 800
       stream_height := 600
       video_frame :=
         { rotation := VideoRotation.VideoRotation0
           buffer := { allocId := 2, width := 800, height := 600 }
           timestamp_us := 0 }
       video_source := some exSink
       next_alloc_id := 3 },
     exChannel1,
     [Event.converted { allocId := 1, width := 640, height := 480 },
      Event.sinkCreated { width := 640, height := 480 },
      Event.notifySent exSink,
      Event.converted { allocId := 2, width := 800, height := 600 },
      Event.frameCaptured exSink
        { rotation := VideoRotation.VideoRotation0
          buffer := { allocId := 2, width := 800, height := 600 }
          timestamp_us := 0 }])
    (by decide)

/-- A single send attempt grows the queue by at most one element. -/
theorem trySend_queue_length (c : Channel) (v : NativeVideoSource) :
    (c.trySend v).1.queue.length ≤ c.queue.length + 1 := by
  unfold Channel.trySend
  split
  · simp
  · exact Nat.le_succ _

/-- `try_recv` on an empty queue yields nothing and leaves the channel. -/
theorem try_recv_nil (c : Channel) (hq : c.queue = []) :
    Channel.try_recv c = (none, c) := by
  unfold Channel.try_recv
  rw [hq]

/-- `try_recv` on a non-empty queue pops the front element. -/
theorem try_recv_cons (c : Channel) (v : NativeVideoSource) (q : List NativeVideoSource)
    (hq : c.queue = v :: q) : Channel.try_recv c = (some v, { queue := q }) := by
  unfold Channel.try_recv
  rw [hq]

/-- Event counts distribute over concatenation of traces. -/
theorem countPublished_append (a b : List Event) :
    countPublished (a ++ b) = countPublished a + countPublished b :=
  List.countP_append _ _ _

/-- One callback invocation publishes nothing and does not increase the
combined credit of queued notifications plus the pending one-shot send. -/
theorem callback_credit (st : CallbackState) (ch : Channel) (r : CaptureResult)
    (f : DesktopFrame) (st1 : CallbackState) (ch1 : Channel) (evs1 : List Event)
    (h : callback st ch r f = some (st1, ch1, evs1)) :
    ch1.queue.length + sinkCredit st1 ≤ ch.queue.length + sinkCredit st ∧
    countPublished evs1 = 0 := by
  cases r with
  | ErrorTemporary =>
    rw [show callback st ch CaptureResult.ErrorTemporary f = some (st, ch, []) from rfl] at h
    simp only [Option.some.injEq, Prod.mk.injEq] at h
    obtain ⟨h1, h2, h3⟩ := h
    subst h1; subst h2; subst h3
    exact ⟨Nat.le_refl _, rfl⟩
  | ErrorPermanent =>
    rw [show callback st ch CaptureResult.ErrorPermanent f = some (st, ch, []) from rfl] at h
    simp only [Option.some.injEq, Prod.mk.injEq] at h
    obtain ⟨h1, h2, h3⟩ := h
    subst h1; subst h2; subst h3
    exact ⟨Nat.le_refl _, rfl⟩
  | Ok =>
    cases hh : tryIntoU32 f.height with
    | none =>
      rw [callback_bad_height st ch f hh] at h
      exact absurd h (by simp)
    | some hgt =>
      cases hw2 : tryIntoU32 f.width with
      | none =>
        rw [callback_bad_width st ch f hgt hh hw2] at h
        exact absurd h (by simp)
      | some wid =>
        rcases hv : st.video_source with _ | vs
        · by_cases hcnd : wid ≠ st.stream_width ∨ hgt ≠ st.stream_height
          · rw [callback_ok_changed_none st ch f wid hgt hw2 hh hcnd hv] at h
            simp only [Option.some.injEq, Prod.mk.injEq] at h
            obtain ⟨h1, h2, h3⟩ := h
            subst h1; subst h2; subst h3
            constructor
            · have hts := trySend_queue_length ch
                { resolution := { width := wid, height := hgt } }
              simp only [sinkCredit, hv]
              omega
            · by_cases hts :
                  (ch.trySend { resolution := { width := wid, height := hgt } }).2 = true <;>
                simp [countPublished, List.countP_cons, hts]
          · push_neg at hcnd
            rw [callback_ok_same_none st ch f wid hgt hw2 hh hcnd.1 hcnd.2 hv] at h
            simp only [Option.some.injEq, Prod.mk.injEq] at h
            obtain ⟨h1, h2, h3⟩ := h
            subst h1; subst h2; subst h3
            constructor
            · have hts := trySend_queue_length ch
                { resolution := { width := st.stream_width, height := st.stream_height } }
              simp only [sinkCredit, hv]
              omega
            · by_cases hts :
                  (ch.trySend { resolution := { width := st.stream_width,
                                                height := st.stream_height } }).2 = true <;>
                simp [countPublished, List.countP_cons, hts]
        · by_cases hcnd : wid ≠ st.stream_width ∨ hgt ≠ st.stream_height
          · rw [callback_ok_changed_some st ch f wid hgt vs hw2 hh hcnd hv] at h
            simp only [Option.some.injEq, Prod.mk.injEq] at h
            obtain ⟨h1, h2, h3⟩ := h
            subst h1; subst h2; subst h3
            exact ⟨by simp [sinkCredit, resized, hv], rfl⟩
          · push_neg at hcnd
            rw [callback_ok_same_some st ch f wid hgt vs hw2 hh hcnd.1 hcnd.2 hv] at h
            simp only [Option.some.injEq, Prod.mk.injEq] at h
            obtain ⟨h1, h2, h3⟩ := h
            subst h1; subst h2; subst h3
            exact ⟨Nat.le_refl _, rfl⟩

/-- Credit invariant for the pump loop: publishes recorded in the trace are
paid for by queued notifications and the single pending one-shot send, so
their total never exceeds the starting credit. Holds for every execution of
the program, i.e. every trace in which only the callback emits on the
channel. -/
theorem runLoop_credit (tr : List LoopInput) :
    ∀ s out, (∀ i ∈ tr, i.injected = ([] : List NativeVideoSource)) →
      runLoop s tr = some out →
      countPublished out.2 + out.1.ch.queue.length + sinkCredit out.1.cb ≤
        s.ch.queue.length + sinkCredit s.cb := by
  induction tr with
  | nil =>
    intro s out hinj h
    simp only [runLoop, Option.some.injEq] at h
    subst h
    simp [countPublished]
  | cons inp rest ih =>
    intro s out hinj h
    simp only [runLoop] at h
    by_cases hc : inp.ctrl_c
    · rw [if_pos hc] at h
      simp only [Option.some.injEq] at h
      subst h
      simp [countPublished, List.countP_cons]
    · rw [if_neg hc] at h
      have hinj0 : inp.injected = ([] : List NativeVideoSource) := hinj inp (by simp)
      rw [hinj0] at h
      simp only [List.foldl_nil] at h
      have hinjrest : ∀ i ∈ rest, i.injected = ([] : List NativeVideoSource) := by
        intro i hi
        exact hinj i (by simp [hi])
      cases hd : inp.delivery with
      | none =>
        rw [hd] at h
        dsimp only at h
        cases hq : s.ch.queue with
        | nil =>
          rw [try_recv_nil s.ch hq] at h
          dsimp only at h
          cases hrest : runLoop { cb := s.cb, ch := s.ch, published := s.published } rest with
          | none => rw [hrest] at h; exact absurd h (by simp)
          | some out2 =>
            rw [hrest] at h
            dsimp only at h
            simp only [Option.some.injEq] at h
            subst h
            have hih := ih _ out2 hinjrest hrest
            simp only [countPublished, List.countP_cons, List.countP_append,
              List.countP_nil, List.length_nil, List.length_cons, if_true, if_false,
              Bool.false_eq_true, reduceIte, hq] at hih ⊢
            omega
        | cons v q =>
          rw [try_recv_cons s.ch v q hq] at h
          dsimp only at h
          cases hrest : runLoop
              { cb := s.cb, ch := { queue := q }, published := s.published ++ [v] } rest with
          | none => rw [hrest] at h; exact absurd h (by simp)
          | some out2 =>
            rw [hrest] at h
            dsimp only at h
            simp only [Option.some.injEq] at h
            subst h
            have hih := ih _ out2 hinjrest hrest
            have hlen : s.ch.queue.length = q.length + 1 := by rw [hq]; rfl
            simp only [countPublished, List.countP_cons, List.countP_append,
              List.countP_nil, List.length_nil, List.length_cons, if_true, if_false,
              Bool.false_eq_true, reduceIte, hq] at hih ⊢
            omega
      | some rf =>
        rw [hd] at h
        dsimp only at h
        cases hcb : callback s.cb s.ch rf.1 rf.2 with
        | none => rw [hcb] at h; exact absurd h (by simp)
        | some t =>
          obtain ⟨cb1, ch1, evs1⟩ := t
          rw [hcb] at h
          dsimp only at h
          obtain ⟨hcred1, hpub1⟩ := callback_credit s.cb s.ch rf.1 rf.2 cb1 ch1 evs1 hcb
          cases hq : ch1.queue with
          | nil =>
            rw [try_recv_nil ch1 hq] at h
            dsimp only at h
            cases hrest : runLoop { cb := cb1, ch := ch1, published := s.published } rest with
            | none => rw [hrest] at h; exact absurd h (by simp)
            | some out2 =>
              rw [hrest] at h
              dsimp only at h
              simp only [Option.some.injEq] at h
              subst h
              have hih := ih _ out2 hinjrest hrest
              simp only [countPublished, List.countP_cons, List.countP_append,
                List.countP_nil, List.length_nil, List.length_cons, if_true, if_false,
                Bool.false_eq_true, reduceIte, hq] at hih hpub1 hcred1 ⊢
              omega
          | cons v q =>
            rw [try_recv_cons ch1 v q hq] at h
            dsimp only at h
            cases hrest : runLoop
                { cb := cb1, ch := { queue := q }, published := s.published ++ [v] } rest with
            | none => rw [hrest] at h; exact absurd h (by simp)
            | some out2 =>
              rw [hrest] at h
              dsimp only at h
              simp only [Option.some.injEq] at h
              subst h
              have hih := ih _ out2 hinjrest hrest
              have hlen : ch1.queue.length = q.length + 1 := by rw [hq]; rfl
              simp only [countPublished, List.countP_cons, List.countP_append,
                List.countP_nil, List.length_nil, List.length_cons, if_true, if_false,
                Bool.false_eq_true, reduceIte, hq] at hih hpub1 hcred1 ⊢
              omega

/-- C1 counterexample: the loop does not guard its channel poll with a
published-state check — it polls every iteration. In the concrete two-
iteration execution below, one additional sink-ready signal is emitted on the
channel after the first, and the loop performs the publish transition twice. -/
theorem C1_counterexample :
    (runLoop initialSysState
        [{ ctrl_c := false, delivery := some (CaptureResult.Ok, exFrame), injected := [] },
         { ctrl_c := false, delivery := none,
           injected := [{ resolution := { width := 100, height := 100 } }] }]).map
      (fun out => countPublished out.2) = some 2 := by
  decide

/-- C1 (amended): in every execution of the program — where the callback is
the only emitter on the sink-ready channel — the publish transition occurs at
most once; this holds because the callback sends at most one notification, not
because the loop polls only while unpublished (it polls unconditionally every
iteration, as `C1_counterexample` shows). -/
theorem C1_amended_publish_at_most_once (tr : List LoopInput)
    (out : SysState × List Event)
    (hinj : ∀ i ∈ tr, i.injected = ([] : List NativeVideoSource))
    (h : runLoop initialSysState tr = some out) :
    countPublished out.2 ≤ 1 := by
  have hcred := runLoop_credit tr initialSysState out hinj h
  have hinit : initialSysState.ch.queue.length + sinkCredit initialSysState.cb = 1 := by
    decide
  omega

/-- Witness for the amended C1 at a concrete input: a run with one successful
frame publishes exactly once, within the bound. -/
theorem C1_witness :
    countPublished
        [Event.captureTick,
         Event.converted { allocId := 1, width := 640, height := 480 },
         Event.sinkCreated { width := 640, height := 480 },
         Event.notifySent exSink,
         Event.published exSink] ≤ 1 :=
  C1_amended_publish_at_most_once
    [{ ctrl_c := false, delivery := some (CaptureResult.Ok, exFrame), injected := [] }]
    ({ cb := exState1, ch := initialChannel, published := [exSink] },
     [Event.captureTick,
      Event.converted { allocId := 1, width := 640, height := 480 },
      Event.sinkCreated { width := 640, height := 480 },
      Event.notifySent exSink,
      Event.published exSink])
    (by intro i hi; simp at hi; subst hi; rfl)
    (by decide)

end Screenshare
